import Mathlib

/-!
Shallow embedding of aws_okta_keyman/aws.py.

The module has two classes.  Credentials reads an INI credentials file,
upserts one section of key/value pairs, rewrites the file and sets its
permission bits to owner read/write (0o600).  Session holds a SAML
assertion, selects an IAM role from the roles parsed out of the
assertion, and checks whether stored credentials are still valid by
parsing their Expiration string with the fixed strptime format
%Y-%m-%d %H:%M:%S+00:00 and comparing it against the current UTC time
plus a 600 second buffer.

Modelling choices:
  - Python datetime values are modelled by a DateTime record of
    year/month/day/hour/minute/second fields; comparison of two naive
    datetimes is modelled by comparing their proleptic-Gregorian second
    counts (dtToSeconds), which agrees with the field-lexicographic
    order Python uses on valid datetimes.  The current time now is a
    second count on the same timeline.
  - strptimeFixed reproduces the regex CPython strptime compiles for
    the fixed format.  The format string space becomes one-or-more
    regex whitespace (the Py_UNICODE_ISSPACE set), so a tab, a
    no-break space or a run of spaces parses; the hyphens, the colons
    and the trailing +00:00 are literal; the year window is four
    regex digits, which on str patterns means Unicode category Nd
    (Unicode 14.0 table), with int() positional values; the two-digit
    month/day/hour/minute/second windows mix explicit ASCII classes
    with Nd exactly as the regex table writes them (including the
    space-padded day alternative and seconds up to 61); the whole
    string must be consumed, and the six values must then form a
    constructible datetime (year at least 1, day within the month,
    second at most 59) or the parse fails.
  - The except (ValueError, TypeError) branch of Session.is_valid is
    the none branch of the parse: any malformed Expiration string gives
    false.  An absent Expiration (None) is rendered by str() as the
    string None, which fails the parse.
  - SamlAssertion.roles lives in aws_saml.py; Session only calls it.
    Its outcome is modelled abstractly as a field rolesResult of the
    Session: either a ParseError (modelled as Except.error) or the
    parsed role list.  The except branch of Session.assume_role catches
    exactly that ParseError; a MultipleRoles raised inside the try and
    an IndexError from indexing an empty list are not caught.
  - The credentials file is modelled by its parsed INI structure (the
    spec describes the write as an upsert into a parsed INI structure):
    an ordered list of sections, each an ordered list of key/value
    pairs, plus the permission mode bits.  configparser keeps sections
    and options in insertion order, option keys are unique within a
    section, and set replaces the value of an existing option in place.
-/

/-- Calendar timestamp produced by the fixed-format strptime parse in
Session.is_valid. -/
structure DateTime where
  year : Nat
  month : Nat
  day : Nat
  hour : Nat
  minute : Nat
  second : Nat
deriving DecidableEq

/-- Starting code points of the decimal digit runs of Unicode
category Nd (Unicode 14.0, the table CPython 3.11 ships): every
decimal digit lies in a contiguous run of ten starting at one of these
zero characters, with positional value code point minus run start. -/
def ndZeros : List Nat :=
  [48, 0x660, 0x6F0, 0x7C0, 0x966, 0x9E6, 0xA66, 0xAE6, 0xB66, 0xBE6,
   0xC66, 0xCE6, 0xD66, 0xDE6, 0xE50, 0xED0, 0xF20, 0x1040, 0x1090, 0x17E0,
   0x1810, 0x1946, 0x19D0, 0x1A80, 0x1A90, 0x1B50, 0x1BB0, 0x1C40, 0x1C50, 0xA620,
   0xA8D0, 0xA900, 0xA9D0, 0xA9F0, 0xAA50, 0xABF0, 0xFF10, 0x104A0, 0x10D30, 0x11066,
   0x110F0, 0x11136, 0x111D0, 0x112F0, 0x11450, 0x114D0, 0x11650, 0x116C0, 0x11730,
   0x118E0, 0x11950, 0x11C50, 0x11D50, 0x11DA0, 0x16A60, 0x16AC0, 0x16B50, 0x1D7CE,
   0x1D7D8, 0x1D7E2, 0x1D7EC, 0x1D7F6, 0x1E140, 0x1E2F0, 0x1E950, 0x1FBF0]

/-- Value of a Unicode decimal digit (category Nd), none for any other
character.  This is exactly what the regex class backslash-d matches on
str patterns, and int() assigns these positional values when the
matched group is converted. -/
def uniVal (c : Char) : Option Nat :=
  (ndZeros.find? fun z => decide (z ≤ c.toNat ∧ c.toNat ≤ z + 9)).map
    fun z => c.toNat - z

/-- The Py_UNICODE_ISSPACE set, which the regex class backslash-s
matches on str patterns: the format string whitespace is compiled to
one-or-more of these. -/
def isPySpace (c : Char) : Bool :=
  decide ((9 ≤ c.toNat ∧ c.toNat ≤ 13) ∨ (28 ≤ c.toNat ∧ c.toNat ≤ 32) ∨
    c.toNat = 0x85 ∨ c.toNat = 0xA0 ∨ c.toNat = 0x1680 ∨
    (0x2000 ≤ c.toNat ∧ c.toNat ≤ 0x200A) ∨ c.toNat = 0x2028 ∨
    c.toNat = 0x2029 ∨ c.toNat = 0x202F ∨ c.toNat = 0x205F ∨ c.toNat = 0x3000)

/-- Membership in the explicit ASCII digit class [lo-hi] the strptime
regex writes in its two-digit windows (these classes, unlike
backslash-d, match ASCII digits only). -/
def isA (lo hi : Nat) (c : Char) : Bool :=
  decide (48 + lo ≤ c.toNat ∧ c.toNat ≤ 48 + hi)

/-- Value of an ASCII digit character. -/
def aVal (c : Char) : Nat := c.toNat - 48

/-- The %Y window of the regex: exactly four decimal digits, value as
int() computes it.  In every field parser below, maximal munch over
the ordered alternatives is equivalent to the backtracking regex
because when a longer alternative matches, every shorter one leaves a
digit in front of the following separator, which is never a digit or
whitespace. -/
def parseYear : List Char → Option (Nat × List Char)
  | c1 :: c2 :: c3 :: c4 :: rest => do
    let d1 ← uniVal c1
    let d2 ← uniVal c2
    let d3 ← uniVal c3
    let d4 ← uniVal c4
    some (((d1 * 10 + d2) * 10 + d3) * 10 + d4, rest)
  | _ => none

/-- The %m window: 1[0-2] or 0[1-9] or [1-9], ASCII classes only. -/
def parseMonth : List Char → Option (Nat × List Char)
  | c1 :: c2 :: rest =>
    if isA 1 1 c1 && isA 0 2 c2 then some (10 * aVal c1 + aVal c2, rest)
    else if isA 0 0 c1 && isA 1 9 c2 then some (aVal c2, rest)
    else if isA 1 9 c1 then some (aVal c1, c2 :: rest)
    else none
  | [c1] => if isA 1 9 c1 then some (aVal c1, []) else none
  | [] => none

/-- The %d window: 3[0-1], [1-2] then backslash-d, 0[1-9], [1-9], or a
literal ASCII space then [1-9] (the space-padded day alternative of
the CPython table). -/
def parseDay : List Char → Option (Nat × List Char)
  | c1 :: c2 :: rest =>
    if isA 3 3 c1 && isA 0 1 c2 then some (10 * aVal c1 + aVal c2, rest)
    else if isA 1 2 c1 && (uniVal c2).isSome then
      some (10 * aVal c1 + (uniVal c2).getD 0, rest)
    else if isA 0 0 c1 && isA 1 9 c2 then some (aVal c2, rest)
    else if isA 1 9 c1 then some (aVal c1, c2 :: rest)
    else if c1 == ' ' && isA 1 9 c2 then some (aVal c2, rest)
    else none
  | [c1] => if isA 1 9 c1 then some (aVal c1, []) else none
  | [] => none

/-- The %H window: 2[0-3], [0-1] then backslash-d, or one
backslash-d. -/
def parseHour : List Char → Option (Nat × List Char)
  | c1 :: c2 :: rest =>
    if isA 2 2 c1 && isA 0 3 c2 then some (10 * aVal c1 + aVal c2, rest)
    else if isA 0 1 c1 && (uniVal c2).isSome then
      some (10 * aVal c1 + (uniVal c2).getD 0, rest)
    else
      match uniVal c1 with
      | some d1 => some (d1, c2 :: rest)
      | none => none
  | [c1] =>
    match uniVal c1 with
    | some d1 => some (d1, [])
    | none => none
  | [] => none

/-- The %M window: [0-5] then backslash-d, or one backslash-d. -/
def parseMinute : List Char → Option (Nat × List Char)
  | c1 :: c2 :: rest =>
    if isA 0 5 c1 && (uniVal c2).isSome then
      some (10 * aVal c1 + (uniVal c2).getD 0, rest)
    else
      match uniVal c1 with
      | some d1 => some (d1, c2 :: rest)
      | none => none
  | [c1] =>
    match uniVal c1 with
    | some d1 => some (d1, [])
    | none => none
  | [] => none

/-- The %S window: 6[0-1], [0-5] then backslash-d, or one
backslash-d. -/
def parseSecond : List Char → Option (Nat × List Char)
  | c1 :: c2 :: rest =>
    if isA 6 6 c1 && isA 0 1 c2 then some (10 * aVal c1 + aVal c2, rest)
    else if isA 0 5 c1 && (uniVal c2).isSome then
      some (10 * aVal c1 + (uniVal c2).getD 0, rest)
    else
      match uniVal c1 with
      | some d1 => some (d1, c2 :: rest)
      | none => none
  | [c1] =>
    match uniVal c1 with
    | some d1 => some (d1, [])
    | none => none
  | [] => none

/-- Drop a run of regex whitespace. -/
def dropSpaces : List Char → List Char
  | [] => []
  | c :: rest => if isPySpace c then dropSpaces rest else c :: rest

/-- One-or-more whitespace, the compilation of the format string
space.  Greedy consumption is exact because the character after the
run must be a digit, and no digit is whitespace. -/
def expectSpaces : List Char → Option (List Char)
  | [] => none
  | c :: rest => if isPySpace c then some (dropSpaces rest) else none

/-- A literal character of the format string. -/
def expectChar (c : Char) : List Char → Option (List Char)
  | c0 :: rest => if c0 == c then some rest else none
  | [] => none

/-- A run of literal characters of the format string. -/
def expectChars : List Char → List Char → Option (List Char)
  | [], cs => some cs
  | e :: es, c0 :: cs => if c0 == e then expectChars es cs else none
  | _ :: _, [] => none

/-- Proleptic Gregorian leap-year rule, as datetime uses. -/
def isLeap (y : Nat) : Bool :=
  y % 4 == 0 && (y % 100 != 0 || y % 400 == 0)

/-- Length of a month; zero for a month index outside 1..12. -/
def daysInMonth (y m : Nat) : Nat :=
  match m with
  | 1 => 31
  | 2 => if isLeap y then 29 else 28
  | 3 => 31
  | 4 => 30
  | 5 => 31
  | 6 => 30
  | 7 => 31
  | 8 => 31
  | 9 => 30
  | 10 => 31
  | 11 => 30
  | 12 => 31
  | _ => 0

/-- The checks the datetime constructor performs on the parsed fields
(MINYEAR is 1, the regex already caps the year at four digits, the day
must fit the month, seconds above 59 are rejected even though the
strptime regex itself admits 60 and 61). -/
def validDateTime (dt : DateTime) : Bool :=
  decide (1 ≤ dt.year ∧ dt.year ≤ 9999 ∧ 1 ≤ dt.month ∧ dt.month ≤ 12 ∧
    1 ≤ dt.day ∧ dt.day ≤ daysInMonth dt.year dt.month ∧
    dt.hour ≤ 23 ∧ dt.minute ≤ 59 ∧ dt.second ≤ 59)

/-- Days in the months strictly before month m of year y. -/
def daysBeforeMonth (y : Nat) : Nat → Nat
  | 0 => 0
  | m + 1 => daysBeforeMonth y m + daysInMonth y m

/-- Zero-based proleptic Gregorian day number of a date. -/
def dateOrdinal (y m d : Nat) : Nat :=
  (y - 1) * 365 + (y - 1) / 4 + (y - 1) / 400 - (y - 1) / 100 +
    daysBeforeMonth y m + (d - 1)

/-- Second count of a datetime on the proleptic Gregorian timeline;
Python's comparison of two valid naive datetimes agrees with comparing
these counts. -/
def dtToSeconds (dt : DateTime) : Nat :=
  dateOrdinal dt.year dt.month dt.day * 86400 +
    dt.hour * 3600 + dt.minute * 60 + dt.second

/-- datetime.datetime.strptime(s, the fixed format) from
Session.is_valid: some parsed value on success, none where Python
raises ValueError.  The compiled regex is the %Y window, a literal
hyphen, the %m window, a literal hyphen, the %d window, one-or-more
whitespace (the format string space), the %H, %M and %S windows with
literal colons between them, and the escaped literal run +00:00; the
whole string must be consumed, and the six values must then construct
a datetime. -/
def strptimeFixed (s : String) : Option DateTime := do
  let (y, r1) ← parseYear s.data
  let r2 ← expectChar '-' r1
  let (m, r3) ← parseMonth r2
  let r4 ← expectChar '-' r3
  let (d, r5) ← parseDay r4
  let r6 ← expectSpaces r5
  let (h, r7) ← parseHour r6
  let r8 ← expectChar ':' r7
  let (mi, r9) ← parseMinute r8
  let r10 ← expectChar ':' r9
  let (sec, r11) ← parseSecond r10
  let r12 ← expectChars "+00:00".data r11
  if r12.isEmpty && validDateTime ⟨y, m, d, h, mi, sec⟩ then
    some ⟨y, m, d, h, mi, sec⟩
  else
    none

/-- str(self.creds[Expiration]) as applied by is_valid: an absent
expiration (None) renders as the string None. -/
def expirationString : Option String → String
  | none => "None"
  | some s => s

/-- Session.is_valid: parse the stored Expiration with the fixed
format and compare now plus a 600 second buffer against it; any parse
failure (the ValueError/TypeError branch) yields false. -/
def is_valid (now : Nat) (expiration : Option String) : Bool :=
  match strptimeFixed (expirationString expiration) with
  | some dt => decide (now + 600 < dtToSeconds dt)
  | none => false

/-- The canonical rendering str(d) of a tz-aware UTC datetime with
zero microseconds: zero-padded fields and a trailing +00:00.  This is
the well-formed timestamp shape the spec speaks about. -/
def pad2 (n : Nat) : List Char :=
  [Char.ofNat (48 + n / 10), Char.ofNat (48 + n % 10)]

/-- Four zero-padded digits of a year. -/
def pad4 (n : Nat) : List Char :=
  [Char.ofNat (48 + n / 1000), Char.ofNat (48 + n / 100 % 10),
   Char.ofNat (48 + n / 10 % 10), Char.ofNat (48 + n % 10)]

/-- Render a DateTime in the canonical fixed format. -/
def formatDT (dt : DateTime) : String :=
  ⟨pad4 dt.year ++ '-' :: (pad2 dt.month ++ '-' :: (pad2 dt.day ++ ' ' ::
    (pad2 dt.hour ++ ':' :: (pad2 dt.minute ++ ':' ::
      (pad2 dt.second ++ "+00:00".data)))))⟩

/-- The exceptions Session role handling can raise: the two module
exceptions, plus the uncaught Python ParseError and IndexError. -/
inductive PyExc where
  | invalidSaml
  | multipleRoles
  | parseError
  | indexError
deriving DecidableEq

/-- One role extracted from the assertion: a role ARN and a principal
ARN (the code spells the key principle). -/
structure Role where
  role : String
  principle : String
deriving DecidableEq

/-- The creds dict of a Session; every field starts as None. -/
structure SessionCreds where
  accessKeyId : Option String
  secretAccessKey : Option String
  sessionToken : Option String
  expiration : Option String
deriving DecidableEq

/-- The Session state the claims touch: the outcome of
self.assertion.roles() (error is the ParseError case), the creds dict
and the selected role. -/
structure Session where
  rolesResult : Except Unit (List Role)
  creds : SessionCreds
  role : Option Role

/-- Session.__init__: creds populated with None placeholders and no
role selected yet. -/
def Session.initial (rolesResult : Except Unit (List Role)) : Session :=
  ⟨rolesResult, ⟨none, none, none, none⟩, none⟩

/-- Session.is_valid on a Session value. -/
def Session.isValidAt (s : Session) (now : Nat) : Bool :=
  is_valid now s.creds.expiration

/-- Python list indexing l[i]: negative indices count from the end,
out-of-range indices raise IndexError (none here). -/
def pyGet {α : Type} (l : List α) (i : Int) : Option α :=
  if 0 ≤ i then l.get? i.toNat
  else if i.natAbs ≤ l.length then l.get? (l.length - i.natAbs)
  else none

/-- Session.set_role: self.role = self.assertion.roles()[int(i)].  A
ParseError from roles() or an IndexError from the indexing propagates. -/
def set_role (s : Session) (roleIndex : Int) : Except PyExc Session :=
  match s.rolesResult with
  | .error _ => .error .parseError
  | .ok rs =>
    match pyGet rs roleIndex with
    | some r => .ok { s with role := some r }
    | none => .error .indexError

/-- The role-selection prefix of Session.assume_role: skip entirely
when a role is already set; otherwise raise MultipleRoles when the
assertion holds more than one role, turn a ParseError from roles()
into InvalidSaml, and index an empty role list into an IndexError
(which the except clause does not catch). -/
def assume_role_select (s : Session) : Except PyExc Session :=
  match s.role with
  | some _ => .ok s
  | none =>
    match s.rolesResult with
    | .error _ => .error .invalidSaml
    | .ok rs =>
      if rs.length > 1 then .error .multipleRoles
      else
        match rs with
        | [] => .error .indexError
        | r :: _ => .ok { s with role := some r }

/-- Section body: ordered key/value pairs with unique keys, as
configparser stores the options of one section. -/
abbrev Items := List (String × String)

/-- Parsed INI structure: ordered named sections. -/
abbrev Config := List (String × Items)

/-- config.set inside one section: replace the value of an existing
option in place, else append the new option. -/
def setKey : Items → String → String → Items
  | [], k, v => [(k, v)]
  | (k0, v0) :: rest, k, v =>
    if k0 == k then (k, v) :: rest else (k0, v0) :: setKey rest k v

/-- Option lookup inside one section. -/
def getFirst : Items → String → Option String
  | [], _ => none
  | (k0, v0) :: rest, k => if k0 == k then some v0 else getFirst rest k

/-- config.has_section. -/
def hasSection (cfg : Config) (n : String) : Bool :=
  cfg.any fun s => s.1 == n

/-- The body of a named section, none when absent. -/
def sectionContents : Config → String → Option Items
  | [], _ => none
  | (n0, items) :: rest, n =>
    if n0 == n then some items else sectionContents rest n

/-- config.set lifted to the whole structure: rewrite the body of the
named section, leave every other section untouched. -/
def setInSection : Config → String → String → String → Config
  | [], _, _, _ => []
  | (n0, items) :: rest, n, k, v =>
    if n0 == n then (n0, setKey items k v) :: setInSection rest n k v
    else (n0, items) :: setInSection rest n k v

/-- The per-section effect of writing every pair of a profile dict in
order. -/
def setAll (items : Items) (profile : Items) : Items :=
  profile.foldl (fun acc kv => setKey acc kv.1 kv.2) items

/-- Credentials._add_profile on the parsed structure: add the section
when absent, then config.set every key/value pair of the profile dict
in order. -/
def addProfileConfig (cfg : Config) (name : String) (profile : Items) : Config :=
  let cfg1 := if hasSection cfg name then cfg else cfg ++ [(name, [])]
  profile.foldl (fun c kv => setInSection c name kv.1 kv.2) cfg1

/-- The credentials file: its parsed INI contents and its permission
mode bits. -/
structure CredFile where
  cfg : Config
  mode : Nat
deriving DecidableEq

/-- The AWS creds dict fields add_profile reads (str-coerced). -/
structure AwsCreds where
  accessKeyId : String
  secretAccessKey : String
  sessionToken : String
deriving DecidableEq

/-- The profile dict built by Credentials.add_profile, in its
insertion order. -/
def profileDict (region : String) (creds : AwsCreds) : Items :=
  [("output", "json"),
   ("region", region),
   ("aws_access_key_id", creds.accessKeyId),
   ("aws_secret_access_key", creds.secretAccessKey),
   ("aws_security_token", creds.sessionToken),
   ("aws_session_token", creds.sessionToken)]

/-- Credentials.add_profile: build the profile dict, upsert it with
_add_profile, and set the file mode to 0o600 before writing. -/
def add_profile (f : CredFile) (name region : String) (creds : AwsCreds) : CredFile :=
  ⟨addProfileConfig f.cfg name (profileDict region creds), 0o600⟩

/-! Lemmas about the section store. -/

theorem sectionContents_setInSection_same (cfg : Config) (n k v : String) :
    sectionContents (setInSection cfg n k v) n
      = (sectionContents cfg n).map (fun it => setKey it k v) := by
  induction cfg with
  | nil => rfl
  | cons s rest ih =>
    obtain ⟨n0, items⟩ := s
    cases hb : n0 == n <;> simp [setInSection, sectionContents, hb, ih]

theorem sectionContents_setInSection_other (cfg : Config) (n m k v : String)
    (h : m ≠ n) :
    sectionContents (setInSection cfg n k v) m = sectionContents cfg m := by
  induction cfg with
  | nil => rfl
  | cons s rest ih =>
    obtain ⟨n0, items⟩ := s
    cases hb : n0 == n
    · simp [setInSection, sectionContents, hb, ih]
    · have hn0 : n0 = n := by simpa using hb
      subst hn0
      have hm : (n0 == m) = false := by simpa using fun hc => h hc.symm
      simp [setInSection, sectionContents, hb, hm, ih]

theorem hasSection_eq_isSome (cfg : Config) (n : String) :
    hasSection cfg n = (sectionContents cfg n).isSome := by
  induction cfg with
  | nil => rfl
  | cons s rest ih =>
    obtain ⟨n0, items⟩ := s
    cases hb : n0 == n
    · simpa [hasSection, sectionContents, hb] using ih
    · simp [hasSection, sectionContents, hb]

theorem sectionContents_append_self (cfg : Config) (n : String)
    (h : sectionContents cfg n = none) :
    sectionContents (cfg ++ [(n, [])]) n = some [] := by
  induction cfg with
  | nil => simp [sectionContents]
  | cons s rest ih =>
    obtain ⟨n0, items⟩ := s
    cases hb : n0 == n
    · simp only [sectionContents, hb] at h
      simp [sectionContents, hb, ih h]
    · simp [sectionContents, hb] at h

theorem sectionContents_append_other (cfg : Config) (n m : String) (h : m ≠ n) :
    sectionContents (cfg ++ [(n, [])]) m = sectionContents cfg m := by
  induction cfg with
  | nil =>
    have hm : (n == m) = false := by simpa using fun hc => h hc.symm
    simp [sectionContents, hm]
  | cons s rest ih =>
    obtain ⟨n0, items⟩ := s
    cases hb : n0 == m <;> simp [sectionContents, hb, ih]

theorem sectionContents_foldSet_same (profile : Items) (cfg : Config) (n : String) :
    sectionContents (profile.foldl (fun c kv => setInSection c n kv.1 kv.2) cfg) n
      = (sectionContents cfg n).map (fun it => setAll it profile) := by
  induction profile generalizing cfg with
  | nil => cases h : sectionContents cfg n <;> simp [setAll, h]
  | cons kv ps ih =>
    rw [List.foldl_cons, ih, sectionContents_setInSection_same]
    cases h : sectionContents cfg n <;> simp [setAll, h]

theorem sectionContents_foldSet_other (profile : Items) (cfg : Config) (n m : String)
    (h : m ≠ n) :
    sectionContents (profile.foldl (fun c kv => setInSection c n kv.1 kv.2) cfg) m
      = sectionContents cfg m := by
  induction profile generalizing cfg with
  | nil => rfl
  | cons kv ps ih =>
    rw [List.foldl_cons, ih, sectionContents_setInSection_other cfg n m _ _ h]

theorem sectionContents_addProfileConfig (cfg : Config) (n : String) (profile : Items) :
    sectionContents (addProfileConfig cfg n profile) n
      = some (setAll ((sectionContents cfg n).getD []) profile) := by
  unfold addProfileConfig
  cases hsc : sectionContents cfg n with
  | none =>
    have hh : hasSection cfg n = false := by rw [hasSection_eq_isSome, hsc]; rfl
    rw [hh]
    simp only [Bool.false_eq_true, if_false, sectionContents_foldSet_same,
      sectionContents_append_self cfg n hsc]
    rfl
  | some it =>
    have hh : hasSection cfg n = true := by rw [hasSection_eq_isSome, hsc]; rfl
    rw [hh]
    simp [sectionContents_foldSet_same, hsc]

theorem sectionContents_addProfileConfig_other (cfg : Config) (n m : String)
    (profile : Items) (h : m ≠ n) :
    sectionContents (addProfileConfig cfg n profile) m = sectionContents cfg m := by
  unfold addProfileConfig
  cases hh : hasSection cfg n
  · simp only [Bool.false_eq_true, if_false, sectionContents_foldSet_other _ _ _ _ h]
    exact sectionContents_append_other cfg n m h
  · simp only [sectionContents_foldSet_other _ _ _ _ h, if_true]

/-! Lemmas about single-section updates. -/

theorem getFirst_setKey_same (items : Items) (k v : String) :
    getFirst (setKey items k v) k = some v := by
  induction items with
  | nil => simp [setKey, getFirst]
  | cons p rest ih =>
    obtain ⟨k0, v0⟩ := p
    cases hb : k0 == k <;> simp [setKey, getFirst, hb, ih]

theorem getFirst_setKey_other (items : Items) (k kq v : String) (h : kq ≠ k) :
    getFirst (setKey items k v) kq = getFirst items kq := by
  have hk : (k == kq) = false := by simpa using fun hc => h hc.symm
  induction items with
  | nil => simp [setKey, getFirst, hk]
  | cons p rest ih =>
    obtain ⟨k0, v0⟩ := p
    cases hb : k0 == k
    · simp [setKey, getFirst, hb, ih]
    · have hk0 : k0 = k := by simpa using hb
      subst hk0
      simp [setKey, getFirst, hk, hb]

theorem setKey_of_getFirst (items : Items) (k v : String)
    (h : getFirst items k = some v) : setKey items k v = items := by
  induction items with
  | nil => simp [getFirst] at h
  | cons p rest ih =>
    obtain ⟨k0, v0⟩ := p
    cases hb : k0 == k
    · simp only [getFirst, hb, Bool.false_eq_true, if_false] at h
      simp [setKey, hb, ih h]
    · have hk0 : k0 = k := by simpa using hb
      subst hk0
      simp only [getFirst, hb, if_true] at h
      injection h with hv
      subst hv
      simp [setKey, hb]

theorem getFirst_setAll_not_mem (profile : Items) (items : Items) (k : String)
    (h : k ∉ profile.map Prod.fst) :
    getFirst (setAll items profile) k = getFirst items k := by
  induction profile generalizing items with
  | nil => rfl
  | cons kv ps ih =>
    obtain ⟨k1, v1⟩ := kv
    simp only [List.map_cons, List.mem_cons, not_or] at h
    simp only [setAll, List.foldl_cons]
    rw [show ps.foldl (fun acc kv => setKey acc kv.1 kv.2) (setKey items k1 v1)
          = setAll (setKey items k1 v1) ps from rfl,
        ih _ h.2, getFirst_setKey_other _ _ _ _ h.1]

theorem setAll_setAll (profile : Items) (items : Items)
    (h : (profile.map Prod.fst).Nodup) :
    setAll (setAll items profile) profile = setAll items profile := by
  induction profile generalizing items with
  | nil => rfl
  | cons kv ps ih =>
    obtain ⟨k, v⟩ := kv
    simp only [List.map_cons, List.nodup_cons] at h
    simp only [setAll, List.foldl_cons]
    rw [show ps.foldl (fun acc kv => setKey acc kv.1 kv.2) (setKey items k v)
          = setAll (setKey items k v) ps from rfl]
    rw [setKey_of_getFirst _ k v (by
      rw [getFirst_setAll_not_mem ps (setKey items k v) k h.1]
      exact getFirst_setKey_same items k v)]
    exact ih (setKey items k v) h.2

/-- The keys of the profile dict are pairwise distinct. -/
theorem profileDict_keys_nodup (region : String) (creds : AwsCreds) :
    ((profileDict region creds).map Prod.fst).Nodup := by
  simp only [profileDict, List.map_cons, List.map_nil]
  decide

/-- C3: writing a profile is idempotent: for every profile name, region
and credentials record, calling Credentials.add_profile twice with the
same arguments on the same file yields the same final contents of that
section as calling it once. -/
theorem claim_C3 (f : CredFile) (name region : String) (creds : AwsCreds) :
    sectionContents (add_profile (add_profile f name region creds) name region creds).cfg name
      = sectionContents (add_profile f name region creds).cfg name := by
  unfold add_profile
  rw [sectionContents_addProfileConfig, sectionContents_addProfileConfig]
  rw [Option.getD_some]
  rw [setAll_setAll _ _ (profileDict_keys_nodup region creds)]

/-- C4: writing profile foo with Credentials.add_profile leaves every
key/value pair of an existing, differently named section bar of the
same file unchanged. -/
theorem claim_C4 (f : CredFile) (foo bar region : String) (creds : AwsCreds)
    (h : bar ≠ foo) :
    sectionContents (add_profile f foo region creds).cfg bar
      = sectionContents f.cfg bar := by
  unfold add_profile
  exact sectionContents_addProfileConfig_other f.cfg foo bar _ h

/-- Witness for C4 at a concrete file holding a section bar. -/
theorem claim_C4_witness :
    "bar" ≠ "foo" ∧
      sectionContents (add_profile ⟨[("bar", [("x", "y")])], 420⟩ "foo" "r"
          ⟨"a", "b", "c"⟩).cfg "bar"
        = sectionContents ([("bar", [("x", "y")])] : Config) "bar" :=
  ⟨by decide, claim_C4 ⟨[("bar", [("x", "y")])], 420⟩ "foo" "bar" "r" ⟨"a", "b", "c"⟩
    (by decide)⟩

/-- C7 as stated is false on the code: add_profile only upserts, so a
key already present in the named section and not among the six profile
fields survives the write, and the section then contains more than
exactly those six fields. -/
theorem claim_C7_counterexample :
    ("extra", "1") ∈ ((sectionContents (add_profile ⟨[("p", [("extra", "1")])], 420⟩
        "p" "us-east-1" ⟨"AK", "SK", "TOK"⟩).cfg "p").getD [])
    ∧ "extra" ∉ (profileDict "us-east-1" ⟨"AK", "SK", "TOK"⟩).map Prod.fst := by
  constructor
  · rw [show (add_profile ⟨[("p", [("extra", "1")])], 420⟩
        "p" "us-east-1" ⟨"AK", "SK", "TOK"⟩).cfg
      = addProfileConfig [("p", [("extra", "1")])] "p"
          (profileDict "us-east-1" ⟨"AK", "SK", "TOK"⟩) from rfl]
    decide
  · decide

/-- C7 amended: after every call of Credentials.add_profile the file
mode is 0o600 and the named section maps each of the six fields output,
region, aws_access_key_id, aws_secret_access_key, aws_security_token,
aws_session_token to the values populated from the given region and
creds; when the section did not exist beforehand its contents are
exactly those six fields in that order, while a key already present in
a pre-existing section and not among the six survives the upsert with
its value (so the section need not contain exactly those fields). -/
theorem claim_C7 (f : CredFile) (name region : String) (creds : AwsCreds) :
    (add_profile f name region creds).mode = 0o600
    ∧ getFirst ((sectionContents (add_profile f name region creds).cfg name).getD [])
        "output" = some "json"
    ∧ getFirst ((sectionContents (add_profile f name region creds).cfg name).getD [])
        "region" = some region
    ∧ getFirst ((sectionContents (add_profile f name region creds).cfg name).getD [])
        "aws_access_key_id" = some creds.accessKeyId
    ∧ getFirst ((sectionContents (add_profile f name region creds).cfg name).getD [])
        "aws_secret_access_key" = some creds.secretAccessKey
    ∧ getFirst ((sectionContents (add_profile f name region creds).cfg name).getD [])
        "aws_security_token" = some creds.sessionToken
    ∧ getFirst ((sectionContents (add_profile f name region creds).cfg name).getD [])
        "aws_session_token" = some creds.sessionToken
    ∧ (sectionContents f.cfg name = none →
        sectionContents (add_profile f name region creds).cfg name
          = some (profileDict region creds))
    ∧ (∀ k v, k ∉ (profileDict region creds).map Prod.fst →
        getFirst ((sectionContents f.cfg name).getD []) k = some v →
        getFirst ((sectionContents (add_profile f name region creds).cfg name).getD [])
          k = some v) := by
  have hsec : sectionContents (add_profile f name region creds).cfg name
      = some (setAll ((sectionContents f.cfg name).getD []) (profileDict region creds)) := by
    unfold add_profile
    exact sectionContents_addProfileConfig f.cfg name _
  refine ⟨rfl, ?_, ?_, ?_, ?_, ?_, ?_, ?_, ?_⟩
  · rw [hsec, Option.getD_some]
    simp only [profileDict, setAll, List.foldl_cons, List.foldl_nil]
    rw [getFirst_setKey_other _ _ _ _ (by decide),
      getFirst_setKey_other _ _ _ _ (by decide),
      getFirst_setKey_other _ _ _ _ (by decide),
      getFirst_setKey_other _ _ _ _ (by decide),
      getFirst_setKey_other _ _ _ _ (by decide), getFirst_setKey_same]
  · rw [hsec, Option.getD_some]
    simp only [profileDict, setAll, List.foldl_cons, List.foldl_nil]
    rw [getFirst_setKey_other _ _ _ _ (by decide),
      getFirst_setKey_other _ _ _ _ (by decide),
      getFirst_setKey_other _ _ _ _ (by decide),
      getFirst_setKey_other _ _ _ _ (by decide), getFirst_setKey_same]
  · rw [hsec, Option.getD_some]
    simp only [profileDict, setAll, List.foldl_cons, List.foldl_nil]
    rw [getFirst_setKey_other _ _ _ _ (by decide),
      getFirst_setKey_other _ _ _ _ (by decide),
      getFirst_setKey_other _ _ _ _ (by decide), getFirst_setKey_same]
  · rw [hsec, Option.getD_some]
    simp only [profileDict, setAll, List.foldl_cons, List.foldl_nil]
    rw [getFirst_setKey_other _ _ _ _ (by decide),
      getFirst_setKey_other _ _ _ _ (by decide), getFirst_setKey_same]
  · rw [hsec, Option.getD_some]
    simp only [profileDict, setAll, List.foldl_cons, List.foldl_nil]
    rw [getFirst_setKey_other _ _ _ _ (by decide), getFirst_setKey_same]
  · rw [hsec, Option.getD_some]
    simp only [profileDict, setAll, List.foldl_cons, List.foldl_nil]
    rw [getFirst_setKey_same]
  · intro h
    rw [hsec, h]
    rfl
  · intro k v hk hv
    rw [hsec, Option.getD_some, getFirst_setAll_not_mem _ _ _ hk]
    exact hv

/-- Witness for C7: an initially empty file exercises the
fresh-section conjunct, and a file whose section p already holds the
key extra exercises the mode and survival conjuncts. -/
theorem claim_C7_witness :
    (sectionContents ([] : Config) "p" = none
      ∧ sectionContents (add_profile ⟨[], 420⟩ "p" "r" ⟨"a", "b", "c"⟩).cfg "p"
          = some (profileDict "r" ⟨"a", "b", "c"⟩))
    ∧ ((add_profile ⟨[("p", [("extra", "1")])], 420⟩ "p" "r" ⟨"a", "b", "c"⟩).mode
          = 0o600
      ∧ "extra" ∉ (profileDict "r" ⟨"a", "b", "c"⟩).map Prod.fst
      ∧ getFirst ((sectionContents ([("p", [("extra", "1")])] : Config) "p").getD [])
          "extra" = some "1"
      ∧ getFirst ((sectionContents (add_profile ⟨[("p", [("extra", "1")])], 420⟩
            "p" "r" ⟨"a", "b", "c"⟩).cfg "p").getD []) "extra" = some "1") :=
  ⟨⟨rfl,
    (claim_C7 ⟨[], 420⟩ "p" "r" ⟨"a", "b", "c"⟩).2.2.2.2.2.2.2.1 rfl⟩,
   ⟨(claim_C7 ⟨[("p", [("extra", "1")])], 420⟩ "p" "r" ⟨"a", "b", "c"⟩).1,
    by decide, rfl,
    (claim_C7 ⟨[("p", [("extra", "1")])], 420⟩ "p" "r" ⟨"a", "b", "c"⟩).2.2.2.2.2.2.2.2
      "extra" "1" (by decide) rfl⟩⟩

/-- C8: in every profile section written by Credentials.add_profile the
fields aws_security_token and aws_session_token hold the same value,
namely the SessionToken of the creds record, and the output field is
the constant json. -/
theorem claim_C8 (f : CredFile) (name region : String) (creds : AwsCreds) :
    getFirst ((sectionContents (add_profile f name region creds).cfg name).getD [])
        "aws_security_token" = some creds.sessionToken
    ∧ getFirst ((sectionContents (add_profile f name region creds).cfg name).getD [])
        "aws_session_token" = some creds.sessionToken
    ∧ getFirst ((sectionContents (add_profile f name region creds).cfg name).getD [])
        "output" = some "json" := by
  unfold add_profile
  rw [sectionContents_addProfileConfig, Option.getD_some]
  set base := (sectionContents f.cfg name).getD [] with hbase
  simp only [profileDict, setAll, List.foldl_cons, List.foldl_nil]
  refine ⟨?_, ?_, ?_⟩
  · rw [getFirst_setKey_other _ _ _ _ (by decide), getFirst_setKey_same]
  · rw [getFirst_setKey_same]
  · rw [getFirst_setKey_other _ _ _ _ (by decide),
      getFirst_setKey_other _ _ _ _ (by decide),
      getFirst_setKey_other _ _ _ _ (by decide),
      getFirst_setKey_other _ _ _ _ (by decide),
      getFirst_setKey_other _ _ _ _ (by decide), getFirst_setKey_same]

/-- C2: with no role pre-selected, assume_role raises InvalidSaml when
no role can be found in the assertion (the roles() call fails with a
ParseError, the case the code logs as finding no Role), and raises
MultipleRoles when the assertion parses to more than one role. -/
theorem claim_C2 (s : Session) (rs : List Role) (h : s.role = none) :
    (s.rolesResult = .error () → assume_role_select s = .error .invalidSaml)
    ∧ (s.rolesResult = .ok rs → 1 < rs.length →
        assume_role_select s = .error .multipleRoles) := by
  constructor
  · intro he
    unfold assume_role_select
    rw [h, he]
  · intro ho hlen
    unfold assume_role_select
    rw [h, ho]
    simp [hlen]

/-- Witness for C2 on a failing parse and on a two-role assertion. -/
theorem claim_C2_witness :
    assume_role_select ⟨.error (), ⟨none, none, none, none⟩, none⟩
        = .error .invalidSaml
    ∧ assume_role_select ⟨.ok [⟨"a", "b"⟩, ⟨"c", "d"⟩], ⟨none, none, none, none⟩, none⟩
        = .error .multipleRoles :=
  ⟨(claim_C2 ⟨.error (), ⟨none, none, none, none⟩, none⟩ [] rfl).1 rfl,
   (claim_C2 ⟨.ok [⟨"a", "b"⟩, ⟨"c", "d"⟩], ⟨none, none, none, none⟩, none⟩
      [⟨"a", "b"⟩, ⟨"c", "d"⟩] rfl).2 rfl (by decide)⟩

/-- C5: set_role with index k selects exactly the zero-indexed k-th
element of the role list parsed from the assertion. -/
theorem claim_C5 (s : Session) (rs : List Role) (k : Nat)
    (hr : s.rolesResult = .ok rs) (hk : k < rs.length) :
    set_role s (Int.ofNat k) = .ok { s with role := some (rs.get ⟨k, hk⟩) } := by
  have hget : pyGet rs ((k : Nat) : Int) = some (rs.get ⟨k, hk⟩) := by
    unfold pyGet
    rw [if_pos (by omega)]
    rw [show ((k : Nat) : Int).toNat = k from rfl]
    exact List.get?_eq_get hk
  unfold set_role
  rw [hr]
  simp [hget]

/-- Witness for C5 selecting index 1 of a two-role list. -/
theorem claim_C5_witness :
    1 < ([⟨"a", "b"⟩, ⟨"c", "d"⟩] : List Role).length ∧
      set_role ⟨.ok [⟨"a", "b"⟩, ⟨"c", "d"⟩], ⟨none, none, none, none⟩, none⟩
          (Int.ofNat 1)
        = .ok ⟨.ok [⟨"a", "b"⟩, ⟨"c", "d"⟩], ⟨none, none, none, none⟩, some ⟨"c", "d"⟩⟩ :=
  ⟨by decide,
   claim_C5 ⟨.ok [⟨"a", "b"⟩, ⟨"c", "d"⟩], ⟨none, none, none, none⟩, none⟩
     [⟨"a", "b"⟩, ⟨"c", "d"⟩] 1 rfl (by decide)⟩

/-- C6: an assertion whose role list holds exactly one role is
auto-selected by assume_role without an index and without raising
MultipleRoles. -/
theorem claim_C6 (s : Session) (r : Role) (h : s.role = none)
    (hr : s.rolesResult = .ok [r]) :
    assume_role_select s = .ok { s with role := some r } := by
  unfold assume_role_select
  rw [h, hr]
  rfl

/-- Witness for C6 on a one-role assertion. -/
theorem claim_C6_witness :
    assume_role_select ⟨.ok [⟨"a", "b"⟩], ⟨none, none, none, none⟩, none⟩
      = .ok ⟨.ok [⟨"a", "b"⟩], ⟨none, none, none, none⟩, some ⟨"a", "b"⟩⟩ :=
  claim_C6 ⟨.ok [⟨"a", "b"⟩], ⟨none, none, none, none⟩, none⟩ ⟨"a", "b"⟩ rfl rfl

/-- C9: with a role already selected, assume_role skips the selection
branch entirely: it raises neither MultipleRoles nor InvalidSaml and
leaves the session, its pre-selected role included, unchanged. -/
theorem claim_C9 (s : Session) (r : Role) (h : s.role = some r) :
    assume_role_select s = .ok s := by
  unfold assume_role_select
  rw [h]

/-- Witness for C9 on a pre-selected role over a two-role assertion. -/
theorem claim_C9_witness :
    (⟨.ok [⟨"a", "b"⟩, ⟨"c", "d"⟩], ⟨none, none, none, none⟩, some ⟨"a", "b"⟩⟩ :
        Session).role = some ⟨"a", "b"⟩
    ∧ assume_role_select
        ⟨.ok [⟨"a", "b"⟩, ⟨"c", "d"⟩], ⟨none, none, none, none⟩, some ⟨"a", "b"⟩⟩
      = .ok ⟨.ok [⟨"a", "b"⟩, ⟨"c", "d"⟩], ⟨none, none, none, none⟩, some ⟨"a", "b"⟩⟩ :=
  ⟨rfl,
   claim_C9 ⟨.ok [⟨"a", "b"⟩, ⟨"c", "d"⟩], ⟨none, none, none, none⟩, some ⟨"a", "b"⟩⟩
     ⟨"a", "b"⟩ rfl⟩

/-- C10: a freshly constructed Session is never valid: the Expiration
field starts as None, str turns it into the unparseable string None,
and is_valid lands in its failure branch. -/
theorem claim_C10 (rolesResult : Except Unit (List Role)) (now : Nat) :
    (Session.initial rolesResult).isValidAt now = false := rfl

/-! Lemmas about the fixed-format parser on canonically rendered
timestamps. -/

theorem uniVal_char (d : Nat) (h : d ≤ 9) :
    uniVal (Char.ofNat (48 + d)) = some d := by
  interval_cases d <;> rfl

theorem isPySpace_char (d : Nat) (h : d ≤ 9) :
    isPySpace (Char.ofNat (48 + d)) = false := by
  interval_cases d <;> rfl

theorem parseYear_pad4 (y : Nat) (rest : List Char) (h : y ≤ 9999) :
    parseYear (pad4 y ++ rest) = some (y, rest) := by
  have h1 : y / 1000 ≤ 9 := by omega
  have h2 : y / 100 % 10 ≤ 9 := by omega
  have h3 : y / 10 % 10 ≤ 9 := by omega
  have h4 : y % 10 ≤ 9 := by omega
  simp only [pad4, List.cons_append, List.nil_append, parseYear,
    uniVal_char _ h1, uniVal_char _ h2, uniVal_char _ h3, uniVal_char _ h4,
    Option.bind_eq_bind, Option.some_bind, Option.some.injEq, Prod.mk.injEq, and_true]
  rw [show y / 100 = y / 10 / 10 from by rw [Nat.div_div_eq_div_mul]]
  rw [show y / 1000 = y / 10 / 10 / 10 from by
    rw [Nat.div_div_eq_div_mul, Nat.div_div_eq_div_mul]]
  omega

theorem parseMonth_pad2 (m : Nat) (rest : List Char) (h1 : 1 ≤ m) (h2 : m ≤ 12) :
    parseMonth (pad2 m ++ rest) = some (m, rest) := by
  interval_cases m <;> rfl

theorem parseDay_pad2 (d : Nat) (rest : List Char) (h1 : 1 ≤ d) (h2 : d ≤ 31) :
    parseDay (pad2 d ++ rest) = some (d, rest) := by
  interval_cases d <;> rfl

theorem parseHour_pad2 (n : Nat) (rest : List Char) (h : n ≤ 23) :
    parseHour (pad2 n ++ rest) = some (n, rest) := by
  interval_cases n <;> rfl

theorem parseMinute_pad2 (n : Nat) (rest : List Char) (h : n ≤ 59) :
    parseMinute (pad2 n ++ rest) = some (n, rest) := by
  interval_cases n <;> rfl

theorem parseSecond_pad2 (n : Nat) (rest : List Char) (h : n ≤ 59) :
    parseSecond (pad2 n ++ rest) = some (n, rest) := by
  interval_cases n <;> rfl

theorem dropSpaces_pad2 (n : Nat) (l : List Char) (h : n ≤ 99) :
    dropSpaces (pad2 n ++ l) = pad2 n ++ l := by
  have hd : n / 10 ≤ 9 := by omega
  simp only [pad2, List.cons_append, dropSpaces, isPySpace_char _ hd,
    Bool.false_eq_true, if_false]
  rfl

theorem expectSpaces_space (l : List Char) :
    expectSpaces (' ' :: l) = some (dropSpaces l) := rfl

theorem expectChar_cons (c : Char) (rest : List Char) :
    expectChar c (c :: rest) = some rest := by
  simp [expectChar]

theorem expectChars_self_append (es cs : List Char) :
    expectChars es (es ++ cs) = some cs := by
  induction es with
  | nil => rfl
  | cons e es ih => simp [expectChars, ih]

theorem daysInMonth_le_31 (y m : Nat) : daysInMonth y m ≤ 31 := by
  unfold daysInMonth
  split <;> first | omega | (split <;> omega)

/-- Parsing the canonical rendering of a valid timestamp recovers it. -/
theorem strptimeFixed_formatDT (dt : DateTime) (h : validDateTime dt = true) :
    strptimeFixed (formatDT dt) = some dt := by
  obtain ⟨y, m, d, hr, mi, s⟩ := dt
  have hv := h
  simp only [validDateTime, decide_eq_true_eq] at hv
  obtain ⟨hy1, hy2, hm1, hm2, hd1, hd2, hh1, hmi1, hs1⟩ := hv
  have hdim : daysInMonth y m ≤ 31 := daysInMonth_le_31 y m
  unfold strptimeFixed formatDT
  rw [show (String.mk (pad4 y ++ '-' :: (pad2 m ++ '-' :: (pad2 d ++ ' ' ::
      (pad2 hr ++ ':' :: (pad2 mi ++ ':' :: (pad2 s ++ "+00:00".data))))))).data
    = pad4 y ++ '-' :: (pad2 m ++ '-' :: (pad2 d ++ ' ' ::
      (pad2 hr ++ ':' :: (pad2 mi ++ ':' :: (pad2 s ++ "+00:00".data))))) from rfl]
  rw [parseYear_pad4 y _ hy2]
  simp only [Option.bind_eq_bind, Option.some_bind]
  rw [expectChar_cons]
  simp only [Option.some_bind]
  rw [parseMonth_pad2 m _ hm1 hm2]
  simp only [Option.some_bind]
  rw [expectChar_cons]
  simp only [Option.some_bind]
  rw [parseDay_pad2 d _ hd1 (by omega)]
  simp only [Option.some_bind]
  rw [expectSpaces_space, dropSpaces_pad2 hr _ (by omega)]
  simp only [Option.some_bind]
  rw [parseHour_pad2 hr _ hh1]
  simp only [Option.some_bind]
  rw [expectChar_cons]
  simp only [Option.some_bind]
  rw [parseMinute_pad2 mi _ hmi1]
  simp only [Option.some_bind]
  rw [expectChar_cons]
  simp only [Option.some_bind]
  rw [parseSecond_pad2 s _ hs1]
  simp only [Option.some_bind]
  rw [show expectChars ['+', '0', '0', ':', '0', '0'] ['+', '0', '0', ':', '0', '0']
      = some [] from rfl]
  simp only [Option.some_bind, List.isEmpty_nil, Bool.true_and, h, if_true]

/-- C1: Session.is_valid returns true iff the current time plus the 10
minute (600 second) buffer is strictly less than the parsed Expiration
timestamp: for every Expiration string the fixed-format strptime
parses, the result is exactly the comparison now + 600 < expiration;
every well-formed timestamp (a constructible datetime in its canonical
rendering) is parseable, so the equivalence covers it; and every
Expiration string the fixed format cannot parse, as well as the absent
(None) Expiration, yields false instead of raising. -/
theorem claim_C1 (now : Nat) (s bad : String) (dt dtw : DateTime)
    (hs : strptimeFixed s = some dt) (hw : validDateTime dtw = true)
    (hbad : strptimeFixed bad = none) :
    (is_valid now (some s) = true ↔ now + 600 < dtToSeconds dt)
    ∧ strptimeFixed (formatDT dtw) = some dtw
    ∧ is_valid now (some bad) = false
    ∧ is_valid now none = false := by
  refine ⟨?_, strptimeFixed_formatDT dtw hw, ?_, rfl⟩
  · unfold is_valid expirationString
    rw [hs]
    simp
  · unfold is_valid expirationString
    rw [hbad]

/-- Witness for C1 on a concrete parseable timestamp with a tab
separator and unpadded fields, a concrete well-formed timestamp, and a
concrete malformed string. -/
theorem claim_C1_witness :
    strptimeFixed "2030-1-2\t3:4:5+00:00" = some ⟨2030, 1, 2, 3, 4, 5⟩
    ∧ validDateTime ⟨2031, 12, 31, 23, 59, 58⟩ = true
    ∧ strptimeFixed "garbage" = none
    ∧ ((is_valid 0 (some "2030-1-2\t3:4:5+00:00") = true
          ↔ 0 + 600 < dtToSeconds ⟨2030, 1, 2, 3, 4, 5⟩)
        ∧ strptimeFixed (formatDT ⟨2031, 12, 31, 23, 59, 58⟩)
            = some ⟨2031, 12, 31, 23, 59, 58⟩
        ∧ is_valid 0 (some "garbage") = false
        ∧ is_valid 0 none = false) :=
  ⟨by decide, by decide, by decide,
   claim_C1 0 "2030-1-2\t3:4:5+00:00" "garbage" ⟨2030, 1, 2, 3, 4, 5⟩
     ⟨2031, 12, 31, 23, 59, 58⟩ (by decide) (by decide) (by decide)⟩
